/-
Verification of the aria2 multi-task downloader core
(`gui_downloader_tkinter.py`) against its natural-language specification.

The Python source is shallowly embedded: pure helpers become Lean
functions on `List Char` / `String`, the mutable `DownloadTask` object
becomes a record threaded through the lifecycle operations, and
OS-level effects (process spawning, termination, exit) are supplied by
explicit environment parameters.  Python exceptions that can escape a
function are modelled by `Option` results (`none` = uncaught exception).
-/
import Mathlib

set_option maxRecDepth 4000

/-! ### Character classes used by the regexes `UNIT_RE` and `PROGRESS_RE` -/

/-- Python regex class `[0-9\.]`. -/
def isNumChar (c : Char) : Bool := c.isDigit || c == '.'

/-- Python regex class `\s` (ASCII whitespace as matched by `re`). -/
def isPySpace (c : Char) : Bool :=
  c == ' ' || c == '\t' || c == '\n' || c == '\r' || c == '\x0b' || c == '\x0c'

/-- Python regex class `[0-9a-f]` under `re.I`. -/
def isHexChar (c : Char) : Bool :=
  c.isDigit || ('a' ≤ c && c ≤ 'f') || ('A' ≤ c && c ≤ 'F')

/-- Python regex class `[0-9\.\w]` (ASCII word characters, a dot, digits). -/
def isWordNum (c : Char) : Bool := c.isAlphanum || c == '_' || c == '.'

/-- Letter of the `[KMGT]` class of `UNIT_RE` under `re.I`. -/
def isUnitLetter (c : Char) : Bool :=
  c == 'K' || c == 'M' || c == 'G' || c == 'T' ||
  c == 'k' || c == 'm' || c == 'g' || c == 't'

def isIChar (c : Char) : Bool := c == 'i' || c == 'I'

def isBChar (c : Char) : Bool := c == 'B' || c == 'b'

/-! ### Python numeric conversions -/

/-- Value of a list of decimal digit characters, as Python `int` reads them. -/
def digitsVal (l : List Char) : Nat :=
  l.foldl (fun a c => 10 * a + (c.toNat - 48)) 0

/-- Python `float(s)` restricted to strings over the alphabet `[0-9.]`
(the only strings `human_to_bytes` feeds it, since they come from the
regex group `([0-9\.]+)`); `none` models a raised `ValueError`.  The
value is represented exactly as (mantissa, scale), meaning
mantissa / 10 ^ scale; the source's binary floating point is modelled
by exact arithmetic. -/
def pyFloat (l : List Char) : Option (ℕ × ℕ) :=
  let intPart := l.takeWhile Char.isDigit
  let rest := l.dropWhile Char.isDigit
  match rest with
  | [] => if intPart = [] then none else some (digitsVal intPart, 0)
  | '.' :: frac =>
      if frac.all Char.isDigit ∧ (intPart ≠ [] ∨ frac ≠ []) then
        some (digitsVal intPart * 10 ^ frac.length + digitsVal frac, frac.length)
      else none
  | _ => none

/-- Python `int(val * mult)` for the non-negative scaled value `v`:
truncation of (mantissa * mult) / 10 ^ scale, i.e. natural division. -/
def pyIntTrunc (v : ℕ × ℕ) (mult : ℕ) : ℕ := v.1 * mult / 10 ^ v.2

/-! ### `UNIT_RE` and `human_to_bytes`

`UNIT_RE = re.compile(r'([0-9\.]+)\s*([KMGT]?i?B)?', re.I)`.

Each character class excludes the character that must follow it, so
Python's greedy matching with backtracking coincides with maximal munch,
and the leftmost match starts at the first `[0-9.]` character. -/

/-- Match of the optional group `([KMGT]?i?B)?` at the start of the
input, following Python's backtracking order (greedy `[KMGT]?`, then
greedy `i?`, then the mandatory `B`).  `none` is an empty match of the
optional group (`m.group(2) is None`). -/
def unitGroup2 : List Char → Option (List Char)
  | [] => none
  | c0 :: rest =>
    if isUnitLetter c0 then
      match rest with
      | c1 :: c2 :: _ =>
          if isIChar c1 && isBChar c2 then some [c0, c1, c2]
          else if isBChar c1 then some [c0, c1]
          else none
      | [c1] => if isBChar c1 then some [c0, c1] else none
      | [] => none
    else if isIChar c0 then
      match rest with
      | c1 :: _ => if isBChar c1 then some [c0, c1] else none
      | [] => none
    else if isBChar c0 then some [c0]
    else none

/-- `UNIT_RE.search(s)`: leftmost match; returns (group 1, group 2). -/
def UNIT_RE_search : List Char → Option (List Char × Option (List Char))
  | [] => none
  | c :: rest =>
    if isNumChar c then
      let g1 := (c :: rest).takeWhile isNumChar
      let r1 := (c :: rest).dropWhile isNumChar
      let r2 := r1.dropWhile isPySpace
      some (g1, unitGroup2 r2)
    else UNIT_RE_search rest

/-- Embedding of `human_to_bytes` (source lines 43-62).  `none` models a
`ValueError` escaping the function (the `float(...)` call is outside any
`try`).  In the no-match branch the source runs `int(s)` under a bare
`except: return 0`; a no-match means `s` contains no `[0-9.]` character,
hence no digit, so `int(s)` always raises and the branch returns 0. -/
def human_to_bytes (s : List Char) : Option ℕ :=
  if s = [] then some 0
  else
    match UNIT_RE_search s with
    | none => some 0
    | some (g1, g2) =>
      match pyFloat g1 with
      | none => none
      | some val =>
        let unit := (g2.getD []).map Char.toUpper
        if unit.contains 'K' then some (pyIntTrunc val 1024)
        else if unit.contains 'M' then some (pyIntTrunc val (1024 ^ 2))
        else if unit.contains 'G' then some (pyIntTrunc val (1024 ^ 3))
        else if unit.contains 'T' then some (pyIntTrunc val (1024 ^ 4))
        else some (pyIntTrunc val 1)


/-! ### Option dictionary (the Python `options` dict of a task) -/

/-- A Python dict value as stored in a task's `options` dict: the GUI
stores strings, ints and bools there. -/
inductive PyVal
  | str (s : String)
  | int (n : Int)
  | bool (b : Bool)
deriving DecidableEq

/-- Insertion-ordered dictionary, as Python dicts behave. -/
abbrev Options := List (String × PyVal)

/-- Python `options.get(key)` (`None` when absent). -/
def Options.get (o : Options) (k : String) : Option PyVal :=
  (List.find? (fun kv => kv.1 == k) o).map (fun kv => kv.2)

/-- Python `options[key] = v`: overwrite in place, or append a new key. -/
def Options.set (o : Options) (k : String) (v : PyVal) : Options :=
  if (List.find? (fun kv => kv.1 == k) o).isSome then
    o.map (fun kv => if kv.1 == k then (k, v) else kv)
  else o ++ [(k, v)]

/-- Python truthiness of a dict value. -/
def pyTruthy : PyVal → Bool
  | .str s => s ≠ ""
  | .int n => n ≠ 0
  | .bool b => b

/-- Python `str()` of a dict value, as used in f-string interpolation. -/
def pyValStr : PyVal → String
  | .str s => s
  | .int n => toString n
  | .bool b => if b then "True" else "False"

/-- Python `int("...")`: optional surrounding spaces, optional sign,
at least one digit; `none` models a raised `ValueError`. -/
def pyIntOfString (s : String) : Option Int :=
  let l := (s.data.dropWhile isPySpace).reverse.dropWhile isPySpace |>.reverse
  let core : List Char × Bool :=
    match l with
    | '-' :: r => (r, true)
    | '+' :: r => (r, false)
    | r => (r, false)
  if core.1 ≠ [] ∧ core.1.all Char.isDigit then
    some (if core.2 then -(digitsVal core.1 : Int) else (digitsVal core.1 : Int))
  else none

/-- Python `int(...)` applied to a dict value; `none` models a raised
exception. -/
def pyToInt : PyVal → Option Int
  | .int n => some n
  | .bool b => some (if b then 1 else 0)
  | .str s => pyIntOfString s

/-! ### Task data model -/

/-- The OS-level view of a spawned child process that the embedding
tracks: whether `poll()` would return `None` (still running), and the
exit code `wait()`/`returncode` reports once it has exited. -/
structure Proc where
  alive : Bool
  returncode : Int
deriving DecidableEq

/-- Mutable state of `DownloadTask` (source lines 64-81), plus
`spawnCount`, an instrumentation counter incremented exactly when
`subprocess.Popen` succeeds, used to state spawn-counting properties. -/
structure DownloadTask where
  url : String
  out_dir : String
  out_name : String
  options : Options
  process : Option Proc
  gid : Option String
  progress : Nat
  have_bytes : Nat
  total_bytes : Nat
  dl_speed : String
  eta : String
  connections : Nat
  status : String
  log_lines : List String
  stop_flag : Bool
  spawnCount : Nat
deriving DecidableEq

/-- Python `str.strip()` on ASCII whitespace. -/
def pyStrip (s : String) : String :=
  String.mk ((s.data.dropWhile isPySpace).reverse.dropWhile isPySpace).reverse

/-- `DownloadTask.__init__` (source lines 65-81).  `cwd` supplies the
value of `os.getcwd()` used when `out_dir` is falsy. -/
def mkTask (cwd url out_dir out_name : String) (options : Options) : DownloadTask :=
  { url := pyStrip url
    out_dir := if out_dir ≠ "" then out_dir else cwd
    out_name := out_name
    options := options
    process := none
    gid := none
    progress := 0
    have_bytes := 0
    total_bytes := 0
    dl_speed := ""
    eta := ""
    connections := 0
    status := "Waiting..."
    log_lines := []
    stop_flag := false
    spawnCount := 0 }

/-- `DownloadTask.log` (source lines 254-258); the wall-clock timestamp
prefix is abstracted away, keeping the message text. -/
def DownloadTask.log (t : DownloadTask) (message : String) : DownloadTask :=
  { t with log_lines := t.log_lines ++ [message] }

/-! ### Command builder (`DownloadTask.build_command`, source lines 83-139) -/

/-- Python `"...".splitlines()` restricted to newline separators (the
GUI never puts other line terminators in the header block), composed
with the per-line `strip()` and non-blank filter of the source loop. -/
def headerLines (s : String) : List String :=
  ((s.data.splitOn '\n').map (fun l => pyStrip (String.mk l))).filter (fun l => l ≠ "")

/-- Python `shlex.split` modelled as whitespace tokenization (exact for
quote-free input; the source falls back to `str.split()` on `shlex`
failure, which is the same whitespace tokenization). -/
def shlexSplit (s : String) : List String :=
  ((s.data.splitOn ' ').map String.mk).filter (fun l => l ≠ "")

/-- `DownloadTask.build_command` (source lines 83-139).  The
`os.makedirs` call is a filesystem side effect with no influence on the
returned vector and is not modelled.  `none` models an exception
escaping the method (only `int()` on a malformed option can raise). -/
def build_command (aria2_path : String) (t : DownloadTask) : Option (List String) :=
  let contPart : List String :=
    if pyTruthy ((t.options.get "continue").getD (.bool true)) then ["-c"] else []
  let allocation := pyValStr ((t.options.get "file-allocation").getD (.str "none"))
  match pyToInt ((t.options.get "split").getD (.int 4)) with
  | none => none
  | some split =>
    match pyToInt ((t.options.get "max-connection-per-server").getD (.int split)) with
    | none => none
    | some max_conn =>
      let triesPart : List String :=
        match t.options.get "max-tries" with
        | some v => ["--max-tries=" ++ pyValStr v]
        | none => []
      let retryPart : List String :=
        match t.options.get "retry-wait" with
        | some v => ["--retry-wait=" ++ pyValStr v]
        | none => []
      let dlLimitPart : List String :=
        match t.options.get "max-download-limit" with
        | some v => if pyTruthy v then ["--max-download-limit=" ++ pyValStr v] else []
        | none => []
      let ulLimitPart : List String :=
        match t.options.get "max-upload-limit" with
        | some v => if pyTruthy v then ["--max-upload-limit=" ++ pyValStr v] else []
        | none => []
      let refererPart : List String :=
        match t.options.get "referer" with
        | some v => if pyTruthy v then ["--referer=" ++ pyValStr v] else []
        | none => []
      let uaPart : List String :=
        match t.options.get "user-agent" with
        | some v => if pyTruthy v then ["--user-agent=" ++ pyValStr v] else []
        | none => []
      let headerPart : List String :=
        match t.options.get "header" with
        | some v =>
            if pyTruthy v then (headerLines (pyValStr v)).map (fun h => "--header=" ++ h)
            else []
        | none => []
      let outPart : List String :=
        if t.out_name ≠ "" then ["-d", t.out_dir, "-o", t.out_name] else ["-d", t.out_dir]
      let extra := pyValStr ((t.options.get "extra_args").getD (.str ""))
      let extraPart : List String := if extra ≠ "" then shlexSplit extra else []
      some ([aria2_path] ++ contPart ++ ["--file-allocation=" ++ allocation]
        ++ ["--split=" ++ toString split, "--max-connection-per-server=" ++ toString max_conn]
        ++ triesPart ++ retryPart ++ dlLimitPart ++ ulLimitPart ++ refererPart ++ uaPart
        ++ headerPart ++ ["--allow-overwrite=true", "--auto-file-renaming=false"]
        ++ outPart ++ extraPart ++ [t.url])

/-! ### Lifecycle operations -/

/-- Outcome of the `subprocess.Popen` call, supplied by the
environment: the spawned process, or the exception message of a failed
spawn. -/
abbrev SpawnOutcome := Except String Proc

/-- Whether `self.process and self.process.poll() is None` holds. -/
def DownloadTask.procAlive (t : DownloadTask) : Bool :=
  match t.process with
  | some p => p.alive
  | none => false

/-- `DownloadTask.start` (source lines 141-167).  `spawn` is the
environment's `Popen` outcome.  The result is `none` when an exception
escapes the method: `build_command` is called outside the `try`, so its
failure propagates.  A successful spawn stores the process handle, sets
status `"Downloading..."`, clears the stop flag and (in the source)
launches the reader thread, whose run is modelled separately by
`read_output`. -/
def DownloadTask.start (spawn : SpawnOutcome) (aria2_path : String) (t : DownloadTask) :
    Option DownloadTask :=
  if t.process.isSome then some (t.log "Task is already in progress.")
  else
    match build_command aria2_path t with
    | none => none
    | some cmd =>
      let t1 := t.log ("Start command: " ++ String.intercalate " " cmd)
      match spawn with
      | .error e => some { t1.log ("Failed to start: " ++ e) with status := "Error" }
      | .ok p =>
          some { t1 with
                  process := some p
                  status := "Downloading..."
                  stop_flag := false
                  spawnCount := t1.spawnCount + 1 }

/-- `DownloadTask.pause` (source lines 169-178).  `termErr` is the
environment's outcome of `process.terminate()` (`some e` = exception
with message `e`).  Termination does not immediately change what
`poll()` reports, so the stored `Proc` is unchanged; the OS-side exit
is modelled separately by `procExits`. -/
def DownloadTask.pause (termErr : Option String) (t : DownloadTask) : DownloadTask :=
  if t.procAlive then
    match termErr with
    | none => { t.log "Download paused" with status := "Paused", stop_flag := true }
    | some e => t.log ("Failed to pause: " ++ e)
  else t

/-- `DownloadTask.stop` (source lines 180-189): same termination
mechanics as `pause`, but `self.status = "Stopped"` runs
unconditionally after the guarded block. -/
def DownloadTask.stop (termErr : Option String) (t : DownloadTask) : DownloadTask :=
  let t1 :=
    if t.procAlive then
      match termErr with
      | none => { t.log "Download stopped" with stop_flag := true }
      | some e => t.log ("Failed to stop: " ++ e)
    else t
  { t1 with status := "Stopped" }

/-- `DownloadTask.resume` (source lines 191-203). -/
def DownloadTask.resume (spawn : SpawnOutcome) (aria2_path : String) (t : DownloadTask) :
    Option DownloadTask :=
  if t.status = "Completed" then some (t.log "Task already completed, no need to resume")
  else if t.procAlive then some (t.log "Task is still running, cannot resume")
  else
    let t1 := t.log "Resuming download (resume broken download)"
    let t2 := { t1 with options := t1.options.set "continue" (.bool true) }
    DownloadTask.start spawn aria2_path t2

/-- Environment action: the OS-side evolution of the child process
between operations (for instance its exit after a `terminate()`), as
later observed through `poll()`/`returncode`. -/
def procEvolve (g : Proc → Proc) (t : DownloadTask) : DownloadTask :=
  { t with process := t.process.map g }

/-- Environment action: the child process exits with the given code. -/
def procExits (code : Int) (t : DownloadTask) : DownloadTask :=
  procEvolve (fun _ => { alive := false, returncode := code }) t

/-! ### `PROGRESS_RE` and the progress line parser

`PROGRESS_RE` (source lines 36-39):
`\[#([0-9a-f]+)\s+([0-9\.\w]+)\/([0-9\.\w]+)\(([0-9]+)%\)\s+CN:([0-9]+)\s+DL:([0-9\.\w]+)\s+ETA:([^\]]+)\]`
with `re.I`.  Every character class in the pattern excludes the literal
character that must follow it, so greedy matching with backtracking is
equivalent to maximal munch, and `search` is the leftmost position at
which the whole pattern matches. -/

/-- The seven capture groups of a `PROGRESS_RE` match. -/
structure ProgressGroups where
  gid : List Char
  have_str : List Char
  total_str : List Char
  percent : List Char
  cn : List Char
  speed : List Char
  etaText : List Char
deriving DecidableEq

/-- Case-insensitive match of one ASCII letter (`re.I`). -/
def ciChar (c lower upper : Char) : Bool := c == lower || c == upper

/-- Match of the whole `PROGRESS_RE` pattern anchored at the head of
the input. -/
def matchProgressAt (s : List Char) : Option ProgressGroups :=
  match s with
  | '[' :: '#' :: r0 =>
    let g1 := r0.takeWhile isHexChar
    let r1 := r0.dropWhile isHexChar
    if g1 = [] then none else
    if r1.takeWhile isPySpace = [] then none else
    let r2 := r1.dropWhile isPySpace
    let g2 := r2.takeWhile isWordNum
    let r3 := r2.dropWhile isWordNum
    if g2 = [] then none else
    match r3 with
    | '/' :: r4 =>
      let g3 := r4.takeWhile isWordNum
      let r5 := r4.dropWhile isWordNum
      if g3 = [] then none else
      match r5 with
      | '(' :: r6 =>
        let g4 := r6.takeWhile Char.isDigit
        let r7 := r6.dropWhile Char.isDigit
        if g4 = [] then none else
        match r7 with
        | '%' :: ')' :: r8 =>
          if r8.takeWhile isPySpace = [] then none else
          let r9 := r8.dropWhile isPySpace
          match r9 with
          | c1 :: c2 :: c3 :: r10 =>
            if ciChar c1 'c' 'C' && ciChar c2 'n' 'N' && c3 == ':' then
              let g5 := r10.takeWhile Char.isDigit
              let r11 := r10.dropWhile Char.isDigit
              if g5 = [] then none else
              if r11.takeWhile isPySpace = [] then none else
              let r12 := r11.dropWhile isPySpace
              match r12 with
              | d1 :: d2 :: d3 :: r13 =>
                if ciChar d1 'd' 'D' && ciChar d2 'l' 'L' && d3 == ':' then
                  let g6 := r13.takeWhile isWordNum
                  let r14 := r13.dropWhile isWordNum
                  if g6 = [] then none else
                  if r14.takeWhile isPySpace = [] then none else
                  let r15 := r14.dropWhile isPySpace
                  match r15 with
                  | e1 :: e2 :: e3 :: e4 :: r16 =>
                    if ciChar e1 'e' 'E' && ciChar e2 't' 'T' && ciChar e3 'a' 'A'
                        && e4 == ':' then
                      let g7 := r16.takeWhile (fun c => !(c == ']'))
                      let r17 := r16.dropWhile (fun c => !(c == ']'))
                      if g7 = [] then none else
                      match r17 with
                      | ']' :: _ =>
                          some { gid := g1, have_str := g2, total_str := g3,
                                 percent := g4, cn := g5, speed := g6, etaText := g7 }
                      | _ => none
                    else none
                  | _ => none
                else none
              | _ => none
            else none
          | _ => none
        | _ => none
      | _ => none
    | _ => none
  | _ => none

/-- `PROGRESS_RE.search`: leftmost match. -/
def PROGRESS_RE_search : List Char → Option ProgressGroups
  | [] => none
  | c :: rest =>
    match matchProgressAt (c :: rest) with
    | some g => some g
    | none => PROGRESS_RE_search rest

/-- Python `needle in hay` on strings: contiguous substring test. -/
def isSubstring (needle : List Char) : List Char → Bool
  | [] => needle == []
  | c :: rest => needle.isPrefixOf (c :: rest) || isSubstring needle rest

/-- Case-insensitive completion-keyword scan of `_parse_progress`
(source lines 249-252): `any(keyword in line.lower() for keyword in
['download complete', 'completed', 'download finished'])`. -/
def keywordCompleted (line : String) : Bool :=
  let low := line.data.map Char.toLower
  isSubstring "download complete".data low || isSubstring "completed".data low
    || isSubstring "download finished".data low

/-- `DownloadTask._parse_progress` (source lines 232-252).  On a match
the source assigns gid, progress, connections, dl_speed and eta before
converting the size tokens; an exception from `human_to_bytes` (caught
by the surrounding `try`, its text abstracted to `"ValueError"`)
therefore leaves `have_bytes`/`total_bytes` at their prior values while
keeping the earlier assignments.  The keyword scan runs afterwards in
every case. -/
def DownloadTask.parse_progress (line : String) (t : DownloadTask) : DownloadTask :=
  let t' :=
    match PROGRESS_RE_search line.data with
    | some g =>
      let t1 := { t with
                   gid := some (String.mk g.gid)
                   progress := digitsVal g.percent
                   connections := digitsVal g.cn
                   dl_speed := String.mk g.speed
                   eta := pyStrip (String.mk g.etaText) }
      match human_to_bytes g.have_str with
      | none => t1.log "Failed to parse progress: ValueError"
      | some hv =>
        let t2 := { t1 with have_bytes := hv }
        match human_to_bytes g.total_str with
        | none => t2.log "Failed to parse progress: ValueError"
        | some tv => { t2 with total_bytes := tv }
    | none => t
  if keywordCompleted line then { t' with status := "Completed" } else t'

/-- Python `line.rstrip('\n')`. -/
def rstripNl (s : String) : String :=
  String.mk (s.data.reverse.dropWhile (fun c => c == '\n')).reverse

/-- The line loop of `DownloadTask._read_output` (source lines
210-216): before each line the stop flag is checked; each surviving
line is logged and routed through the progress parser. -/
def readLines : List String → DownloadTask → DownloadTask
  | [], t => t
  | l :: ls, t =>
    if t.stop_flag then t
    else readLines ls (DownloadTask.parse_progress (rstripNl l) (t.log (rstripNl l)))

/-- `DownloadTask._read_output` (source lines 205-230).  `lines` is the
sequence the child process's combined output stream yields before end
of stream, and `exitCode` the code `wait()` reaps.  After the stream
ends the source waits for the process (making `poll()` report the exit
code) and classifies the exit only when
`self.status == "Downloading"` and the stop flag is down. -/
def DownloadTask.read_output (lines : List String) (exitCode : Int) (t : DownloadTask) :
    DownloadTask :=
  match t.process with
  | none => t
  | some _ =>
    let t1 := readLines lines t
    let t2 := { t1 with process := some { alive := false, returncode := exitCode } }
    if t2.status = "Downloading" ∧ t2.stop_flag = false then
      if exitCode = 0 then { t2.log "Download completed" with status := "Completed" }
      else { t2.log ("Download error, return code: " ++ toString exitCode) with
              status := "Error" }
    else t2

/-! ### Task registry (`Aria2DownloaderApp`, the parts the claims use) -/

/-- The registry state of `Aria2DownloaderApp`: the ordered task list
and the currently selected positional identity. -/
structure Aria2App where
  tasks : List DownloadTask
  selected : Option Nat
deriving DecidableEq

/-- `Aria2DownloaderApp._delete_task` (source lines 559-582): with no
selection it only shows a warning; with a selected task whose status is
`"Downloading"` it refuses; otherwise it removes the task and clears
the selection.  (UI tree updates are not modelled.) -/
def Aria2App.delete_task (app : Aria2App) : Aria2App :=
  match app.selected with
  | none => app
  | some i =>
    match app.tasks[i]? with
    | none => app
    | some task =>
      if task.status = "Downloading" then app
      else { tasks := app.tasks.eraseIdx i, selected := none }

/-! ### Concrete scenario used by several claims -/

/-- The options dict `_add_task` builds (source lines 440-451) with the
GUI's default control values. -/
def exOptions : Options :=
  [("continue", .bool true), ("split", .int 4), ("max-connection-per-server", .int 16),
   ("max-tries", .int 5), ("file-allocation", .str "none"),
   ("max-download-limit", .str ""), ("user-agent", .str ""), ("referer", .str ""),
   ("header", .str ""), ("extra_args", .str "")]

/-- A freshly added task. -/
def task0 : DownloadTask := mkTask "/cwd" "http://example/file.bin" "/downloads" "" exOptions

/-- The process handle a successful spawn yields (initially alive). -/
def proc0 : Proc := { alive := true, returncode := 0 }

/-- The task right after a successful `start`. -/
def startedTask : DownloadTask :=
  (DownloadTask.start (Except.ok proc0) "aria2c" task0).getD task0


/-- The started task after `pause()` succeeded. -/
def pausedTask : DownloadTask := DownloadTask.pause none startedTask


/-- The paused task once the OS has reaped the terminated child
(exit code -15, SIGTERM). -/
def exitedTask : DownloadTask := procExits (-15) pausedTask

/-- The task after `resume()` on the reaped, paused task. -/
def resumedTask : DownloadTask :=
  (DownloadTask.resume (Except.ok proc0) "aria2c" exitedTask).getD exitedTask


/-- The structured progress line of the spec's test vector. -/
def exLine : String := "[#a1b2 10MiB/100MiB(10%) CN:4 DL:1.5MiB ETA:1m0s]"


/-! ### Lemmas about the unit parser on number-plus-unit inputs -/

lemma takeWhile_eq_self_of_all {p : Char → Bool} (l : List Char)
    (h : ∀ c ∈ l, p c = true) : l.takeWhile p = l := by
  induction l with
  | nil => rfl
  | cons c cs ih =>
      have hc := h c (List.mem_cons_self c cs)
      simp [List.takeWhile_cons, hc, ih (fun x hx => h x (List.mem_cons_of_mem c hx))]

lemma dropWhile_eq_nil_of_all {p : Char → Bool} (l : List Char)
    (h : ∀ c ∈ l, p c = true) : l.dropWhile p = [] := by
  induction l with
  | nil => rfl
  | cons c cs ih =>
      simp only [List.dropWhile_cons, h c (List.mem_cons_self c cs), if_true]
      exact ih (fun x hx => h x (List.mem_cons_of_mem c hx))

lemma takeWhile_append_all {p : Char → Bool} (xs ys : List Char)
    (h1 : ∀ c ∈ xs, p c = true) :
    (xs ++ ys).takeWhile p = xs ++ ys.takeWhile p := by
  induction xs with
  | nil => rfl
  | cons c cs ih =>
      have hc := h1 c (List.mem_cons_self c cs)
      simp [List.takeWhile_cons, hc, ih (fun x hx => h1 x (List.mem_cons_of_mem c hx))]

lemma dropWhile_append_all {p : Char → Bool} (xs ys : List Char)
    (h1 : ∀ c ∈ xs, p c = true) :
    (xs ++ ys).dropWhile p = ys.dropWhile p := by
  induction xs with
  | nil => rfl
  | cons c cs ih =>
      simp only [List.cons_append, List.dropWhile_cons,
        h1 c (List.mem_cons_self c cs), if_true]
      exact ih (fun x hx => h1 x (List.mem_cons_of_mem c hx))

lemma takeWhile_cons_of_neg {p : Char → Bool} (c : Char) (l : List Char)
    (h : p c = false) : (c :: l).takeWhile p = [] := by
  simp [List.takeWhile_cons, h]

lemma dropWhile_cons_of_neg {p : Char → Bool} (c : Char) (l : List Char)
    (h : p c = false) : (c :: l).dropWhile p = c :: l := by
  simp [List.dropWhile_cons, h]

/-- On a nonempty all-digit prefix followed by a character that is
neither in `[0-9.]` nor whitespace, `UNIT_RE.search` returns the digit
prefix as group 1 and matches the unit group at the remainder. -/
lemma UNIT_RE_search_digits (d suf : List Char) (u : Char)
    (hne : d ≠ []) (hd : ∀ c ∈ d, c.isDigit = true)
    (hu1 : isNumChar u = false) (hu2 : isPySpace u = false) :
    UNIT_RE_search (d ++ u :: suf) = some (d, unitGroup2 (u :: suf)) := by
  have hdnum : ∀ c ∈ d, isNumChar c = true := by
    intro c hc
    simp [isNumChar, hd c hc]
  cases d with
  | nil => exact absurd rfl hne
  | cons c cs =>
      have hc : isNumChar c = true := hdnum c (List.mem_cons_self c cs)
      show UNIT_RE_search (c :: (cs ++ u :: suf)) = _
      unfold UNIT_RE_search
      rw [hc]
      simp only [if_true]
      have htw : ((c :: cs) ++ u :: suf).takeWhile isNumChar = c :: cs := by
        rw [takeWhile_append_all (c :: cs) (u :: suf) hdnum,
          takeWhile_cons_of_neg u suf hu1]
        simp
      have hdw : ((c :: cs) ++ u :: suf).dropWhile isNumChar = u :: suf := by
        rw [dropWhile_append_all (c :: cs) (u :: suf) hdnum]
        exact dropWhile_cons_of_neg u suf hu1
      simp only [List.cons_append] at htw hdw
      rw [htw, hdw, dropWhile_cons_of_neg u suf hu2]

/-- `pyFloat` on a nonempty all-digit token is its decimal value. -/
lemma pyFloat_digits (d : List Char) (hne : d ≠ [])
    (hd : ∀ c ∈ d, c.isDigit = true) :
    pyFloat d = some (digitsVal d, 0) := by
  unfold pyFloat
  rw [takeWhile_eq_self_of_all d hd, dropWhile_eq_nil_of_all d hd]
  simp [hne]

/-- The byte multiplier `human_to_bytes` applies for a given match of
the unit group. -/
def multOfGroup (g : Option (List Char)) : ℕ :=
  let unit := (g.getD []).map Char.toUpper
  if unit.contains 'K' then 1024
  else if unit.contains 'M' then 1024 ^ 2
  else if unit.contains 'G' then 1024 ^ 3
  else if unit.contains 'T' then 1024 ^ 4
  else 1

lemma human_to_bytes_digits_unit (d suf : List Char) (u : Char)
    (hne : d ≠ []) (hd : ∀ c ∈ d, c.isDigit = true)
    (hu1 : isNumChar u = false) (hu2 : isPySpace u = false) :
    human_to_bytes (d ++ u :: suf)
      = some (pyIntTrunc (digitsVal d, 0) (multOfGroup (unitGroup2 (u :: suf)))) := by
  unfold human_to_bytes
  have hne2 : ¬(d ++ u :: suf = []) := by
    cases d <;> simp
  rw [if_neg hne2, UNIT_RE_search_digits d suf u hne hd hu1 hu2]
  simp only [pyFloat_digits d hne hd, multOfGroup]
  split_ifs <;> rfl

lemma pyIntTrunc_scale0 (n m : ℕ) : pyIntTrunc (n, 0) m = n * m := by
  simp [pyIntTrunc]

/-- Multiplier assigned to each recognized unit letter. -/
def unitMult (u : Char) : ℕ :=
  if u == 'K' || u == 'k' then 1024
  else if u == 'M' || u == 'm' then 1024 ^ 2
  else if u == 'G' || u == 'g' then 1024 ^ 3
  else if u == 'T' || u == 't' then 1024 ^ 4
  else 1

/-- The unit letters of the `[KMGT]` class, both cases. -/
def unitLetters : List Char := ['K', 'k', 'M', 'm', 'G', 'g', 'T', 't']

/-- The case variants of the mandatory trailing `"B"`/`"iB"`. -/
def unitSuffixes : List (List Char) :=
  [['B'], ['b'], ['i', 'B'], ['i', 'b'], ['I', 'B'], ['I', 'b']]

/-! ### Claim theorems -/

/-- C1: the claim says that after `start` and a child-process exit with
code 0 and no further output, the task's status becomes Completed.  In
the source this never happens: `start` sets the status string
`"Downloading..."`, while the reader's classifier (source line 223)
compares against `"Downloading"`, so the exit-code classification is
dead and the status stays `"Downloading..."`. -/
theorem read_output_exit_zero_keeps_downloading :
    DownloadTask.start (Except.ok proc0) "aria2c" task0 = some startedTask
      ∧ (DownloadTask.read_output [] 0 startedTask).status = "Downloading..."
      ∧ (DownloadTask.read_output [] 0 startedTask).status ≠ "Completed" := by
  refine ⟨by decide, by decide, by decide⟩

/-- C2: the claim says pause-then-resume yields exactly two spawns.  In
the source it yields exactly one: while the terminated process is still
unreaped, `resume` refuses with "Task is still running, cannot resume";
once it has been reaped, `resume` invokes `start`, which sees the stale
process handle (never cleared) and returns after logging "Task is
already in progress." — so no second spawn ever happens. -/
theorem resume_after_pause_spawns_once :
    startedTask.spawnCount = 1
      ∧ DownloadTask.resume (Except.ok proc0) "aria2c" pausedTask
          = some (pausedTask.log "Task is still running, cannot resume")
      ∧ DownloadTask.resume (Except.ok proc0) "aria2c" exitedTask = some resumedTask
      ∧ resumedTask.spawnCount = 1
      ∧ resumedTask.log_lines.getLast? = some "Task is already in progress." := by
  refine ⟨by decide, by decide, by decide, by decide, by decide⟩

/-- C3: the claim says removal of a Downloading task is refused.  In
the source a downloading task carries the status string
`"Downloading..."`, while `_delete_task` (source line 567) compares
against `"Downloading"`, so the guard never fires and the running task
is removed from the registry. -/
theorem delete_task_removes_downloading_task :
    startedTask.status = "Downloading..."
      ∧ Aria2App.delete_task { tasks := [startedTask], selected := some 0 }
          = { tasks := [], selected := none } := by
  refine ⟨by decide, by decide⟩

/-- C4 (counterexample): `toBytes("1K")` returns 1, not 1024 — the unit
group of `UNIT_RE` requires a literal trailing `B`, so a bare unit
letter is not classified. -/
theorem human_to_bytes_bare_unit_counterexample :
    human_to_bytes "1K".data = some 1 ∧ human_to_bytes "1K".data ≠ some 1024 := by
  refine ⟨by decide, by decide⟩

/-- C4 (amended): for every decimal-digit number followed by a unit
letter from {K, M, G, T} (either case) with a MANDATORY trailing
"B"/"iB" (case-insensitive), the parser returns the number multiplied
by the corresponding power of 1024; in particular
toBytes("1KB") = 1024 and toBytes("2MiB") = 2*1024*1024, but a bare
unit letter as in toBytes("1K") is ignored and the plain number is
returned. -/
theorem human_to_bytes_unit_rule (d : List Char) (hne : d ≠ [])
    (hd : ∀ c ∈ d, c.isDigit = true) (u : Char) (hu : u ∈ unitLetters)
    (suf : List Char) (hs : suf ∈ unitSuffixes) :
    human_to_bytes (d ++ u :: suf) = some (digitsVal d * unitMult u) := by
  have hcase : ∀ x ∈ unitLetters, ∀ s ∈ unitSuffixes,
      multOfGroup (unitGroup2 (x :: s)) = unitMult x
        ∧ isNumChar x = false ∧ isPySpace x = false := by decide
  obtain ⟨h1, h2, h3⟩ := hcase u hu suf hs
  rw [human_to_bytes_digits_unit d suf u hne hd h2 h3, h1, pyIntTrunc_scale0]

/-- Witness for C4's amended theorem at the spec's own example:
"2MiB" parses to 2*1024^2 bytes. -/
theorem human_to_bytes_unit_rule_witness :
    human_to_bytes "2MiB".data = some (2 * 1024 ^ 2) := by
  have h := human_to_bytes_unit_rule ['2'] (by decide) (by decide) 'M' (by decide)
    ['i', 'B'] (by decide)
  exact h.trans (by decide)

/-- C5: the claim says the unit parser is total and returns 0 on any
unparsable input.  In the source `float(m.group(1))` sits outside every
`try`, so an input whose leading `[0-9.]` token is not a valid float —
"." is one — raises a `ValueError` out of `human_to_bytes` (modelled as
`none`), while e.g. "garbage" indeed yields 0. -/
theorem human_to_bytes_raises_on_dot :
    human_to_bytes ".".data = none ∧ human_to_bytes "1.2.3".data = none
      ∧ human_to_bytes "garbage".data = some 0 := by
  refine ⟨by decide, by decide, by decide⟩

/-- C6: on the spec's example progress line the parser overwrites, from
any prior task state, gid/have/total/percent/connections/speed/eta with
the advertised values; and on every line the structured marker does not
match, all seven fields keep their prior values. -/
theorem parse_progress_fields :
    (∀ t : DownloadTask,
        (DownloadTask.parse_progress exLine t).gid = some "a1b2"
        ∧ (DownloadTask.parse_progress exLine t).have_bytes = 10 * 1024 * 1024
        ∧ (DownloadTask.parse_progress exLine t).total_bytes = 100 * 1024 * 1024
        ∧ (DownloadTask.parse_progress exLine t).progress = 10
        ∧ (DownloadTask.parse_progress exLine t).connections = 4
        ∧ (DownloadTask.parse_progress exLine t).dl_speed = "1.5MiB"
        ∧ (DownloadTask.parse_progress exLine t).eta = "1m0s")
    ∧ (∀ (t : DownloadTask) (line : String), PROGRESS_RE_search line.data = none →
        (DownloadTask.parse_progress line t).gid = t.gid
        ∧ (DownloadTask.parse_progress line t).have_bytes = t.have_bytes
        ∧ (DownloadTask.parse_progress line t).total_bytes = t.total_bytes
        ∧ (DownloadTask.parse_progress line t).progress = t.progress
        ∧ (DownloadTask.parse_progress line t).connections = t.connections
        ∧ (DownloadTask.parse_progress line t).dl_speed = t.dl_speed
        ∧ (DownloadTask.parse_progress line t).eta = t.eta) := by
  constructor
  · intro t
    exact ⟨rfl, rfl, rfl, rfl, rfl, rfl, rfl⟩
  · intro t line h
    have hred : DownloadTask.parse_progress line t
        = (if keywordCompleted line then { t with status := "Completed" } else t) := by
      unfold DownloadTask.parse_progress
      rw [h]
    rw [hred]
    split
    · exact ⟨rfl, rfl, rfl, rfl, rfl, rfl, rfl⟩
    · exact ⟨rfl, rfl, rfl, rfl, rfl, rfl, rfl⟩

/-- Witness for C6 at concrete states: the unmatched-line part applied
to the fresh task and the line "hello", whose search concretely fails. -/
theorem parse_progress_fields_witness :
    (DownloadTask.parse_progress "hello" task0).gid = task0.gid
      ∧ (DownloadTask.parse_progress "hello" task0).have_bytes = task0.have_bytes
      ∧ (DownloadTask.parse_progress "hello" task0).total_bytes = task0.total_bytes
      ∧ (DownloadTask.parse_progress "hello" task0).progress = task0.progress
      ∧ (DownloadTask.parse_progress "hello" task0).connections = task0.connections
      ∧ (DownloadTask.parse_progress "hello" task0).dl_speed = task0.dl_speed
      ∧ (DownloadTask.parse_progress "hello" task0).eta = task0.eta :=
  parse_progress_fields.2 task0 "hello" (by decide)

/-- C7: whenever the options dict maps "split" to the int 4 and has no
"max-connection-per-server" entry, the built argument vector contains
both `--split=4` and `--max-connection-per-server=4` (the latter
defaulting to the split count). -/
theorem build_command_split_defaults_max_conn (path : String) (t : DownloadTask)
    (h1 : t.options.get "split" = some (.int 4))
    (h2 : t.options.get "max-connection-per-server" = none) :
    ∃ cmd, build_command path t = some cmd ∧ "--split=4" ∈ cmd
      ∧ "--max-connection-per-server=4" ∈ cmd := by
  unfold build_command
  rw [h1, h2]
  refine ⟨_, rfl, ?_, ?_⟩
  · have e : "--split=4" = "--split=" ++ toString (4 : Int) := rfl
    rw [e]
    simp
  · have e : "--max-connection-per-server=4"
        = "--max-connection-per-server=" ++ toString (4 : Int) := rfl
    rw [e]
    simp

/-- A task whose options dict carries only split=4. -/
def taskSplit4 : DownloadTask := mkTask "/cwd" "u" "/d" "" [("split", PyVal.int 4)]

/-- Witness for C7 at a concrete configuration. -/
theorem build_command_split_defaults_max_conn_witness :
    ∃ cmd, build_command "aria2c" taskSplit4 = some cmd ∧ "--split=4" ∈ cmd
      ∧ "--max-connection-per-server=4" ∈ cmd :=
  build_command_split_defaults_max_conn "aria2c" taskSplit4 (by decide) (by decide)

/-- C8: `resume` on a Completed task, or while a process is alive, only
appends the corresponding log line (same status, same process handle,
same spawn count — no spawn); otherwise it forces `continue` true in
the options and invokes `start`. -/
theorem resume_guards (t : DownloadTask) (spawn : SpawnOutcome) (path : String) :
    (t.status = "Completed" →
        DownloadTask.resume spawn path t
            = some (t.log "Task already completed, no need to resume"))
    ∧ (t.status ≠ "Completed" → t.procAlive = true →
        DownloadTask.resume spawn path t
            = some (t.log "Task is still running, cannot resume"))
    ∧ (t.status ≠ "Completed" → t.procAlive = false →
        DownloadTask.resume spawn path t
            = DownloadTask.start spawn path
                { t.log "Resuming download (resume broken download)" with
                   options := t.options.set "continue" (.bool true) })
    ∧ (∀ msg, (t.log msg).spawnCount = t.spawnCount ∧ (t.log msg).process = t.process
        ∧ (t.log msg).status = t.status
        ∧ (t.log msg).log_lines = t.log_lines ++ [msg]) := by
  refine ⟨?_, ?_, ?_, ?_⟩
  · intro h
    simp [DownloadTask.resume, h]
  · intro h1 h2
    simp [DownloadTask.resume, h1, h2]
  · intro h1 h2
    unfold DownloadTask.resume
    rw [if_neg h1, if_neg (by simp [h2])]
    exact rfl
  · intro msg
    exact ⟨rfl, rfl, rfl, rfl⟩

/-- A task in the Completed state. -/
def completedTask : DownloadTask := { task0 with status := "Completed" }

/-- Witness for C8: resume on a concrete Completed task is refused with
only the log line appended. -/
theorem resume_guards_witness :
    DownloadTask.resume (Except.ok proc0) "aria2c" completedTask
      = some (completedTask.log "Task already completed, no need to resume") :=
  (resume_guards completedTask (Except.ok proc0) "aria2c").1 rfl

/-- C9: `stop` twice in a row — with any terminate outcomes and any
OS-side evolution of the process in between — never changes the spawn
count (no process is spawned) and leaves status Stopped after each
call. -/
theorem stop_twice_idempotent (t : DownloadTask) (e1 e2 : Option String)
    (g : Proc → Proc) :
    (DownloadTask.stop e1 t).status = "Stopped"
      ∧ (DownloadTask.stop e2 (procEvolve g (DownloadTask.stop e1 t))).status = "Stopped"
      ∧ (DownloadTask.stop e2 (procEvolve g (DownloadTask.stop e1 t))).spawnCount
          = t.spawnCount := by
  have hs : ∀ (e : Option String) (x : DownloadTask),
      (DownloadTask.stop e x).spawnCount = x.spawnCount := by
    intro e x
    unfold DownloadTask.stop
    split
    · cases e <;> rfl
    · rfl
  refine ⟨rfl, rfl, ?_⟩
  rw [hs]
  exact hs e1 t

/-- C10: once a task's process handle is set, no lifecycle operation
and no reader run ever resets it to `None`; consequently any later
`start` only logs "Task is already in progress." and returns, spawning
nothing. -/
theorem process_handle_persists (t : DownloadTask) (p : Proc) (spawn : SpawnOutcome)
    (path : String) (e : Option String) (lines : List String) (code : Int)
    (h : t.process = some p) :
    (∀ t1, DownloadTask.start spawn path t = some t1 → t1.process ≠ none)
    ∧ (DownloadTask.pause e t).process ≠ none
    ∧ (DownloadTask.stop e t).process ≠ none
    ∧ (∀ t1, DownloadTask.resume spawn path t = some t1 → t1.process ≠ none)
    ∧ (DownloadTask.read_output lines code t).process ≠ none
    ∧ DownloadTask.start spawn path t = some (t.log "Task is already in progress.") := by
  have hsome : t.process.isSome = true := by rw [h]; rfl
  have hstart : ∀ x : DownloadTask, x.process.isSome = true →
      DownloadTask.start spawn path x = some (x.log "Task is already in progress.") := by
    intro x hx
    unfold DownloadTask.start
    rw [if_pos hx]
  refine ⟨?_, ?_, ?_, ?_, ?_, hstart t hsome⟩
  · intro t1 h1
    rw [hstart t hsome] at h1
    cases h1
    simp [DownloadTask.log, h]
  · unfold DownloadTask.pause
    split
    · cases e <;> simp [DownloadTask.log, h]
    · simp [h]
  · unfold DownloadTask.stop
    split
    · cases e <;> simp [DownloadTask.log, h]
    · simp [h]
  · intro t1 h1
    unfold DownloadTask.resume at h1
    split at h1
    · cases h1
      simp [DownloadTask.log, h]
    · split at h1
      · cases h1
        simp [DownloadTask.log, h]
      · rw [hstart _ (by simp [DownloadTask.log, h])] at h1
        cases h1
        simp [DownloadTask.log, h]
  · unfold DownloadTask.read_output
    simp only [h]
    split
    · split <;> simp [DownloadTask.log]
    · simp

/-- Witness for C10 at the started task: pause keeps the handle, and a
second `start` refuses with the advertised log line. -/
theorem process_handle_persists_witness :
    (DownloadTask.pause none startedTask).process ≠ none
      ∧ DownloadTask.start (Except.ok proc0) "aria2c" startedTask
          = some (startedTask.log "Task is already in progress.") := by
  have h := process_handle_persists startedTask proc0 (Except.ok proc0) "aria2c" none [] 0
    (by decide)
  exact ⟨h.2.1, h.2.2.2.2.2⟩
